import Mathlib

/-!
Verification of the OpenVAT three.js viewer's VAT playback core.

The definitions below are a shallow embedding of the repository's code:
  * `src/threejs/materials/MeshStandardMaterialOpenVAT.js` — the GLSL code
    injected by the material (frame selection, texture sampling, position
    remap, normal decode) and the `onBeforeCompile` shader patching.
  * `src/components/Scene.tsx` — `ensureUVCoordinates`.
  * the unnamed viewer component — `loadVATRemapInfoFromFile`.

GLSL floats are modelled as exact rationals (`ℚ`); the only irrational
operation, `normalize` (which divides by a square root), is modelled over
`ℝ`.  GLSL division by zero is undefined; the rational model inherits
Lean's convention `x / 0 = 0`, noted at each definition it affects.
-/

namespace OpenVAT

/-- A GLSL `vec2` (components named after the shader's `uv` usage). -/
structure Vec2 where
  u : ℚ
  v : ℚ
deriving DecidableEq, Repr

/-- A GLSL `vec3` over exact rationals. -/
@[ext]
structure Vec3 where
  x : ℚ
  y : ℚ
  z : ℚ
deriving DecidableEq, Repr

/-- GLSL `mat3`, stored by columns as in GLSL (`M[i]` is column `i`). -/
structure Mat3 where
  col0 : Vec3
  col1 : Vec3
  col2 : Vec3
deriving DecidableEq, Repr

/-- GLSL `dot` for `vec3`. -/
def dot3 (a b : Vec3) : ℚ := a.x * b.x + a.y * b.y + a.z * b.z

/-- GLSL `v * M` for a row vector and a `mat3`: component `i` is
`dot(v, M[i])` with `M[i]` the `i`-th column. -/
def vecMulMat (v : Vec3) (M : Mat3) : Vec3 :=
  ⟨dot3 v M.col0, dot3 v M.col1, dot3 v M.col2⟩

/-- Componentwise `vec3` addition (GLSL `+`). -/
def vadd (a b : Vec3) : Vec3 := ⟨a.x + b.x, a.y + b.y, a.z + b.z⟩

/-- GLSL `mix(a, b, t) = a*(1-t) + b*t` on scalars. -/
def glslMix (a b t : ℚ) : ℚ := a * (1 - t) + b * t

/-- GLSL `mix` on `vec3`, componentwise. -/
def mixV (a b : Vec3) (t : ℚ) : Vec3 :=
  ⟨glslMix a.x b.x t, glslMix a.y b.y t, glslMix a.z b.z t⟩

/-- GLSL `floor`. -/
def glslFloor (x : ℚ) : ℚ := (⌊x⌋ : ℚ)

/-- GLSL `mod(x, y) = x - y * floor(x / y)`.  GLSL leaves `y = 0`
undefined; under Lean's `x / 0 = 0` convention this evaluates to `x`. -/
def glslMod (x y : ℚ) : ℚ := x - y * (⌊x / y⌋ : ℚ)

/-- GLSL `fract(x) = x - floor(x)`. -/
def glslFract (x : ℚ) : ℚ := x - (⌊x⌋ : ℚ)

/-- The VAT uniform block of `MeshStandardOpenVATMaterial` (constructor,
`this.uniforms`), restricted to the members the injected vertex code reads. -/
structure PlaybackUniforms where
  time : ℚ
  Speed : ℚ
  FrameCount : ℤ
  ToggleAnimated : Bool
  frameSelect : ℤ
  Y_resolution : ℚ
  minValues : Vec3
  maxValues : Vec3
deriving DecidableEq, Repr

/-- The default uniform values set in the material constructor. -/
def defaultUniforms : PlaybackUniforms :=
  { time := 0, Speed := 24, FrameCount := 60, ToggleAnimated := true
  , frameSelect := 0, Y_resolution := 512
  , minValues := ⟨-1, -1, -1⟩, maxValues := ⟨1, 1, 1⟩ }

/-- Result of the frame-selection block of `vertexVatPosition`. -/
structure FrameSel where
  frameTime : ℚ
  currentFrame : ℤ
  nextFrame : ℤ
  blend : ℚ
deriving DecidableEq, Repr

/-- Frame selection, from `shaderAdditions.vertexVatPosition`:

```
float frameTime;  int currentFrame;  int nextFrame;
if (ToggleAnimated) {
    frameTime = mod(time * Speed, float(FrameCount));
    currentFrame = int(floor(frameTime));
    nextFrame = (currentFrame + 1) % FrameCount;
} else {
    currentFrame = frameSelect;
    nextFrame = currentFrame;
}
float blend = fract(frameTime);
```

In the `else` branch `frameTime` is read while never having been written;
GLSL leaves the value of an uninitialized local undefined, so the embedding
takes that residual value as the extra argument `frameTimeInit`.  GLSL `%`
on `int` is undefined for negative operands and agrees with `Int.emod` on
non-negative ones. -/
def selectFrame (uni : PlaybackUniforms) (frameTimeInit : ℚ) : FrameSel :=
  if uni.ToggleAnimated then
    let frameTime := glslMod (uni.time * uni.Speed) (uni.FrameCount : ℚ)
    let currentFrame : ℤ := ⌊frameTime⌋
    let nextFrame : ℤ := (currentFrame + 1) % uni.FrameCount
    ⟨frameTime, currentFrame, nextFrame, glslFract frameTime⟩
  else
    ⟨frameTimeInit, uni.frameSelect, uni.frameSelect, glslFract frameTimeInit⟩

/-- Modelled from the spec: the clamp §4.1 requires for manual mode,
`clamp(manualFrame, 0, frameCount - 1)`.  Stated only to compare against
the code, which performs no clamping. -/
def specClamp (x lo hi : ℤ) : ℤ := max lo (min x hi)

/-! ## Texture sampling and position remap (`vertexVatPosition`, middle part) -/

/-- A bound 2D texture, as seen by the shader: `texture(tex, uv).rgb`.
Filtering/wrapping details are abstracted into the function itself. -/
def Tex : Type := Vec2 → Vec3

/-- `float frameStep = 1.0 / Y_resolution;`  (GLSL division by zero is
undefined; the model yields `0` for `yRes = 0`.) -/
def frameStep (yRes : ℚ) : ℚ := 1 / yRes

/-- `uv1 + vec2(0.0, float(f) * frameStep)` — the lookup coordinate shifted
to frame `f`'s row. -/
def vatUVOffset (uv1 : Vec2) (f : ℤ) (yRes : ℚ) : Vec2 :=
  ⟨uv1.u + 0, uv1.v + (f : ℚ) * frameStep yRes⟩

/-- The interpolated sample one texture contributes:
two fetches (current and next frame row) mixed by `blend`.
```
vec3 VAT_position = texture(vat_position_texture, VAT_UV_offset).rgb;
vec3 VAT_position_next = texture(vat_position_texture, VAT_UV_offset_next).rgb;
VAT_position = mix(VAT_position, VAT_position_next, blend);
``` -/
def sampleVAT (tex : Tex) (uv1 : Vec2) (s : FrameSel) (yRes : ℚ) : Vec3 :=
  mixV (tex (vatUVOffset uv1 s.currentFrame yRes))
       (tex (vatUVOffset uv1 s.nextFrame yRes)) s.blend

/-- Position remap to object space (lines 109–113 of the material):
```
object_space_position.x = minValues.x + VAT_position.x * (maxValues.x - minValues.x);
object_space_position.z = -1. * (minValues.y + VAT_position.y * (maxValues.y - minValues.y));
object_space_position.y = minValues.z + VAT_position.z * (maxValues.z - minValues.z);
``` -/
def remapPosition (minV maxV s : Vec3) : Vec3 :=
  { x := minV.x + s.x * (maxV.x - minV.x)
  , y := minV.z + s.z * (maxV.z - minV.z)
  , z := -1 * (minV.y + s.y * (maxV.y - minV.y)) }

/-- `transformed += object_space_position;` — the vertex position after the
VAT stage, for a given interpolated sample. -/
def vatVertexPosition (transformed minV maxV sample : Vec3) : Vec3 :=
  vadd transformed (remapPosition minV maxV sample)

/-! ## Normal decode (`vertexVatPosition`, last part) -/

/-- Normal unpack: `2.0 * n - 1.0` componentwise, from `[0,1]` to `[-1,1]`. -/
def unpackNormal (s : Vec3) : Vec3 := ⟨2 * s.x - 1, 2 * s.y - 1, 2 * s.z - 1⟩

/-- The Blender-to-three.js axis conversion applied to normals:
`vec3(n.r, n.b, -n.g)`. -/
def axisCorrect (n : Vec3) : Vec3 := ⟨n.x, n.z, -n.y⟩

/-- The vector the vertex shader normalizes into `v_vat_normal`
(lines 118–129), before the `normalize` call, as a function of the two raw
fetched normal samples:
```
VAT_normal = 2.0 * VAT_normal - 1.0;
VAT_normal_next = 2.0 * VAT_normal_next - 1.0;
VAT_normal = vec3(VAT_normal.r, VAT_normal.b, -VAT_normal.g);
VAT_normal_next = vec3(VAT_normal_next.r, VAT_normal_next.b, -VAT_normal_next.g);
... mix(VAT_normal, VAT_normal_next, blend) * normalMatrix ...
``` -/
def codeNormalPre (a b : Vec3) (blend : ℚ) (M : Mat3) : Vec3 :=
  vecMulMat (mixV (axisCorrect (unpackNormal a)) (axisCorrect (unpackNormal b)) blend) M

/-- The same pre-normalization vector with the two normal-texture fetches
spelled out, tying `codeNormalPre` to the frame selection and row offsets. -/
def vatNormalPre (texN : Tex) (uv1 : Vec2) (s : FrameSel) (yRes : ℚ) (M : Mat3) : Vec3 :=
  codeNormalPre (texN (vatUVOffset uv1 s.currentFrame yRes))
                (texN (vatUVOffset uv1 s.nextFrame yRes)) s.blend M

/-- Modelled from the spec: the order of operations §4.3 claims for the
normal pipeline — unpack both frames, interpolate, then axis-correct, then
transform by the normal matrix.  Stated for comparison with
`codeNormalPre`, which axis-corrects before interpolating. -/
def specNormalPre (a b : Vec3) (blend : ℚ) (M : Mat3) : Vec3 :=
  vecMulMat (axisCorrect (mixV (unpackNormal a) (unpackNormal b) blend)) M

/-! ## Normalization (over `ℝ`) and the fragment stage -/

/-- Real-valued 3-vector, for the one irrational operation (`normalize`). -/
def RVec3 : Type := ℝ × ℝ × ℝ

/-- Cast a rational vector to `ℝ³`. -/
def toR (v : Vec3) : RVec3 := ((v.x : ℝ), (v.y : ℝ), (v.z : ℝ))

/-- Squared Euclidean norm of an `RVec3`. -/
def rnormSq (v : RVec3) : ℝ := v.1 * v.1 + v.2.1 * v.2.1 + v.2.2 * v.2.2

/-- GLSL `normalize(v) = v / length(v)`.  `normalize(0)` is undefined in
GLSL; the model inherits `x / 0 = 0`, so it yields the zero vector there. -/
noncomputable def glslNormalize (v : RVec3) : RVec3 :=
  (v.1 / Real.sqrt (rnormSq v), v.2.1 / Real.sqrt (rnormSq v),
   v.2.2 / Real.sqrt (rnormSq v))

/-- `v_vat_normal = normalize(mix(VAT_normal, VAT_normal_next, blend) * normalMatrix);` -/
noncomputable def vVatNormal (texN : Tex) (uv1 : Vec2) (s : FrameSel) (yRes : ℚ)
    (M : Mat3) : RVec3 :=
  glslNormalize (toR (vatNormalPre texN uv1 s yRes M))

/-- Binding of the material's (nullable) normal-texture uniform to a
sampler.  In WebGL, a sampler with no texture bound (the uniform's `value`
is `null`) reads as `(0, 0, 0, 1)`, so its `.rgb` is the zero vector. -/
def bindTexture (t : Option Tex) : Tex :=
  match t with
  | some tex => tex
  | none => fun _ => ⟨0, 0, 0⟩

/-- The fragment-stage normal.  `shaderAdditions.fragmentMain` is injected
right after `#include <normal_fragment_begin>` (which computed the base
pipeline's `normal`) and unconditionally overwrites it:
```
normal = normalize(v_vat_normal);
nonPerturbedNormal = normal;
```
`baseNormal` is the value `normal` held before the injected lines run. -/
noncomputable def fragmentNormal (vvat baseNormal : RVec3) : RVec3 :=
  glslNormalize vvat

/-- End-to-end shading normal of the material for a possibly absent normal
texture: the vertex stage computes `v_vat_normal` from the bound sampler,
and the fragment stage renormalizes it, discarding the base normal. -/
noncomputable def materialFragmentNormal (texNOpt : Option Tex) (uv1 : Vec2)
    (s : FrameSel) (yRes : ℚ) (M : Mat3) (baseNormal : RVec3) : RVec3 :=
  fragmentNormal (vVatNormal (bindTexture texNOpt) uv1 s yRes M) baseNormal

/-- The 3×3 identity, a valid normal matrix. -/
def idMat3 : Mat3 := ⟨⟨1, 0, 0⟩, ⟨0, 1, 0⟩, ⟨0, 0, 1⟩⟩

/-! ## `onBeforeCompile` and the shared `THREE.ShaderChunk` registry -/

/-- Whether `pat` is an initial segment of `s` (on character lists). -/
def charsStartWith (pat s : List Char) : Bool :=
  match pat, s with
  | [], _ => true
  | _ :: _, [] => false
  | p :: ps, c :: cs => p == c && charsStartWith ps cs

/-- Replace the first occurrence of `pat` in `s` by `repl`; `s` unchanged
when `pat` does not occur. -/
def replaceFirstChars (s pat repl : List Char) : List Char :=
  match s with
  | [] => []
  | c :: cs =>
    if charsStartWith pat (c :: cs) then repl ++ (c :: cs).drop pat.length
    else c :: replaceFirstChars cs pat repl

/-- JavaScript `String.prototype.replace` with a string pattern (assumed
non-empty here): replaces the first occurrence only. -/
def jsReplace (s pat repl : String) : String :=
  String.mk (replaceFirstChars s.data pat.data repl.data)

/-- The shared, library-global `THREE.ShaderChunk` registry, restricted to
the two chunks `onBeforeCompile` mentions.  Every material instance of the
whole program compiles against this one mutable object. -/
structure ShaderChunkRegistry where
  beginnormal_vertex : String
  normal_fragment_begin : String
deriving DecidableEq, Repr

/-- The effect of `MeshStandardOpenVATMaterial.onBeforeCompile` on the
shared registry (lines 193–198):
```
const customBeginNormalVertex = THREE.ShaderChunk.beginnormal_vertex.replace(
    `vec3 objectNormal = vec3( normal )`,
    `vec3 objectNormal = vec3( v_vat_normal )`
);
THREE.ShaderChunk.beginnormal_vertex = customBeginNormalVertex;
```
The per-shader edits (`shader.vertexShader`, `shader.fragmentShader`) touch
only the argument shader object and are not part of this state. -/
def onBeforeCompileChunks (c : ShaderChunkRegistry) : ShaderChunkRegistry :=
  { c with
    beginnormal_vertex :=
      jsReplace c.beginnormal_vertex
        "vec3 objectNormal = vec3( normal )"
        "vec3 objectNormal = vec3( v_vat_normal )" }

/-- The first line of three.js's stock `beginnormal_vertex` chunk, the
state the registry holds before any VAT material is compiled. -/
def stockBeginNormalVertex : String := "vec3 objectNormal = vec3( normal );"

/-! ## `ensureUVCoordinates` (Scene.tsx, lines 309–363) -/

/-- A geometry's attribute set, restricted to the attributes
`ensureUVCoordinates` reads and writes: per-vertex positions (always
present) and the optional `uv` / `uv1` 2-component attributes. -/
structure BufferGeometry where
  position : List Vec3
  uv : Option (List Vec2)
  uv1 : Option (List Vec2)
deriving DecidableEq, Repr

/-- UVs generated from positions when `uv` is missing:
`u = (x + 1.0) * 0.5; v = (y + 1.0) * 0.5;`. -/
def genUVFromXY (ps : List Vec3) : List Vec2 :=
  ps.map (fun p => ⟨(p.x + 1) * (1/2), (p.y + 1) * (1/2)⟩)

/-- The dead-branch generator for `uv1` when even `uv` would be absent:
`u = (z + 1.0) * 0.5; v = (x + 1.0) * 0.5;`. -/
def genUVFromZX (ps : List Vec3) : List Vec2 :=
  ps.map (fun p => ⟨(p.z + 1) * (1/2), (p.x + 1) * (1/2)⟩)

/-- `ensureUVCoordinates` from Scene.tsx: if `uv` is missing, synthesize it
from positions; then, if `uv1` is missing, copy it from `uv` when present,
otherwise synthesize it from positions.  Always returns a geometry (no
error path of any kind). -/
def ensureUVCoordinates (g : BufferGeometry) : BufferGeometry :=
  let g1 := if g.uv.isNone then { g with uv := some (genUVFromXY g.position) } else g
  if g1.uv1.isNone then
    match g1.uv with
    | some uvAttr => { g1 with uv1 := some uvAttr }
    | none => { g1 with uv1 := some (genUVFromZX g1.position) }
  else g1

/-! ## `loadVATRemapInfoFromFile` (viewer component, lines 663–702) -/

/-- A JSON value, the possible results of `JSON.parse`. -/
inductive Json where
  | null : Json
  | bool : Bool → Json
  | num : ℚ → Json
  | str : String → Json
  | arr : List Json → Json
  | obj : List (String × Json) → Json

/-- A JavaScript expression value that may be `undefined`
(`none` = `undefined`). -/
def JsVal : Type := Option Json

/-- JS property access `j[k]` / `j.k`: throws a `TypeError` on `null`,
looks the key up on objects, and yields `undefined` on every other
primitive.  (String/array objects have no such named properties for the
keys this code uses.) -/
def jsGet (j : Json) (k : String) : Except Unit JsVal :=
  match j with
  | .null => .error ()
  | .obj fields => .ok ((fields.find? (fun p => p.1 == k)).map (·.2))
  | _ => .ok none

/-- JS optional-chained property access `j?.k` on a definite value: yields
`undefined` instead of throwing on `null`. -/
def jsGetOpt (j : Json) (k : String) : JsVal :=
  match j with
  | .null => none
  | .obj fields => (fields.find? (fun p => p.1 == k)).map (·.2)
  | _ => none

/-- JS optional-chained indexing `v?.[i]`: `undefined` when the chain is
already `undefined`/`null`; element lookup on arrays; one-character string
on strings; `undefined` on other primitives. -/
def jsIndexOpt (v : JsVal) (i : ℕ) : JsVal :=
  match v with
  | none => none
  | some .null => none
  | some (.arr xs) => xs.get? i
  | some (.str s) => (s.data.get? i).map (fun c => .str (String.mk [c]))
  | some _ => none

/-- Plain JS indexing `j[i]` on a definite non-null value (as used on the
truthy `osRemap.Position`). -/
def jsIndex (j : Json) (i : ℕ) : JsVal := jsIndexOpt (some j) i

/-- JS nullish coalescing `v ?? d`: `d` when `v` is `undefined` or `null`. -/
def nullish (v : JsVal) (d : Json) : Json :=
  match v with
  | none => d
  | some .null => d
  | some j => j

/-- JS truthiness of a possibly-undefined value. -/
def jsTruthy (v : JsVal) : Bool :=
  match v with
  | none => false
  | some .null => false
  | some (.bool b) => b
  | some (.num q) => q != 0
  | some (.str s) => s != ""
  | some (.arr _) => true
  | some (.obj _) => true

/-- The record `setVatParams` receives.  The code performs no type
conversion on the metadata fields, so they hold raw JS values (`Json`),
possibly-`undefined` ones (`JsVal`) inside the optional `Position`
vector. -/
structure VATParamsJ where
  Y_resolution : ℚ
  FrameCount : Json
  Position : Option (JsVal × JsVal × JsVal)
  minValues : Json × Json × Json
  maxValues : Json × Json × Json

/-- The parameter record built inside `loadVATRemapInfoFromFile` after a
successful parse (viewer component, lines 671–693):
```
let yResolution = 512.0;
if (texture && texture.image) { yResolution = texture.image.height; }
setVatParams({
  Y_resolution: yResolution,
  FrameCount: osRemap?.Frames ?? 60,
  Position: osRemap?.Position ? new THREE.Vector3(osRemap.Position[0], ...) : null,
  minValues: new THREE.Vector3(osRemap?.Min?.[0] ?? -1.0, ...),
  maxValues: new THREE.Vector3(osRemap?.Max?.[0] ?? 1.0, ...)
});
```
`texHeight` is `texture.image.height` when a texture with an image was
passed, else `none`. -/
def mkVatParams (osRemap : Json) (texHeight : Option ℚ) : VATParamsJ :=
  { Y_resolution := texHeight.getD 512
  , FrameCount := nullish (jsGetOpt osRemap "Frames") (.num 60)
  , Position :=
      let pv := jsGetOpt osRemap "Position"
      if jsTruthy pv then some (jsIndexOpt pv 0, jsIndexOpt pv 1, jsIndexOpt pv 2)
      else none
  , minValues :=
      ( nullish (jsIndexOpt (jsGetOpt osRemap "Min") 0) (.num (-1))
      , nullish (jsIndexOpt (jsGetOpt osRemap "Min") 1) (.num (-1))
      , nullish (jsIndexOpt (jsGetOpt osRemap "Min") 2) (.num (-1)) )
  , maxValues :=
      ( nullish (jsIndexOpt (jsGetOpt osRemap "Max") 0) (.num 1)
      , nullish (jsIndexOpt (jsGetOpt osRemap "Max") 1) (.num 1)
      , nullish (jsIndexOpt (jsGetOpt osRemap "Max") 2) (.num 1) ) }

/-- How the promise returned by `loadVATRemapInfoFromFile` settles.
(`reader.onerror`, a failure to read the file at all, happens before any
parsing and is out of scope here: the inputs below describe a file whose
contents were read and handed to `JSON.parse`.) -/
inductive LoadOutcome where
  | resolved : LoadOutcome
  | rejectedParse : LoadOutcome
  | rejectedAccess : LoadOutcome
deriving DecidableEq, Repr

/-- Joint outcome of one `loadVATRemapInfoFromFile` call: the `vatParams`
React state after the call, how the promise settled, and how many times
`setVatParams` was invoked. -/
structure LoadResult where
  vatParams : Option VATParamsJ
  outcome : LoadOutcome
  setVatParamsCalls : ℕ

/-- `loadVATRemapInfoFromFile` (viewer component, lines 663–702).
`parseResult` is the outcome of `JSON.parse` on the file contents (`none`
when it threw a parse error); `st` is the `vatParams` state before the
call.  The body is one `try`/`catch`: a throw anywhere before
`setVatParams` rejects the promise with that error and leaves the state
untouched.  `remapInfo['os-remap']` throws a `TypeError` when `remapInfo`
is `null`; every later access is optional-chained and cannot throw. -/
def loadVATRemapInfoFromFile (parseResult : Option Json) (texHeight : Option ℚ)
    (st : Option VATParamsJ) : LoadResult :=
  match parseResult with
  | none => ⟨st, .rejectedParse, 0⟩
  | some remapInfo =>
    match jsGet remapInfo "os-remap" with
    | .error _ => ⟨st, .rejectedAccess, 0⟩
    | .ok v =>
      let osRemap := nullish v Json.null
      ⟨some (mkVatParams osRemap texHeight), .resolved, 1⟩

/-! ## Arithmetic facts about the GLSL primitives -/

theorem glslMod_nonneg (x y : ℚ) (hy : 0 < y) : 0 ≤ glslMod x y := by
  have hfl : ((⌊x / y⌋ : ℚ)) ≤ x / y := Int.floor_le (x / y)
  have hmul : y * (⌊x / y⌋ : ℚ) ≤ y * (x / y) :=
    mul_le_mul_of_nonneg_left hfl hy.le
  have hxy : y * (x / y) = x := by field_simp
  simp only [glslMod]
  linarith

theorem glslMod_lt (x y : ℚ) (hy : 0 < y) : glslMod x y < y := by
  have hfl : x / y < (⌊x / y⌋ : ℚ) + 1 := Int.lt_floor_add_one (x / y)
  have hmul : x < ((⌊x / y⌋ : ℚ) + 1) * y := (div_lt_iff₀ hy).mp hfl
  simp only [glslMod]
  nlinarith

theorem glslFract_nonneg (x : ℚ) : 0 ≤ glslFract x := by
  have := Int.floor_le x
  simp only [glslFract]
  linarith

theorem glslFract_lt_one (x : ℚ) : glslFract x < 1 := by
  have := Int.lt_floor_add_one x
  simp only [glslFract]
  linarith

/-! ## Claim theorems -/

/-- C1 (confirmed): in animated mode, with `frameCount > 0`, the frame
selector computes `frameTime = mod(time * Speed, frameCount)` with
`frameTime ∈ [0, frameCount)`, `currentFrame = floor(frameTime)`,
`nextFrame = (currentFrame + 1) mod frameCount`, and
`blend = frameTime - currentFrame ∈ [0, 1)`; in particular
`currentFrame ∈ [0, frameCount)`. -/
theorem c1_animated_frame_selection (uni : PlaybackUniforms) (g : ℚ)
    (hA : uni.ToggleAnimated = true) (hFC : 0 < uni.FrameCount) :
    (selectFrame uni g).frameTime = glslMod (uni.time * uni.Speed) (uni.FrameCount : ℚ) ∧
    0 ≤ (selectFrame uni g).frameTime ∧
    (selectFrame uni g).frameTime < (uni.FrameCount : ℚ) ∧
    (selectFrame uni g).currentFrame = ⌊(selectFrame uni g).frameTime⌋ ∧
    (selectFrame uni g).nextFrame = ((selectFrame uni g).currentFrame + 1) % uni.FrameCount ∧
    (selectFrame uni g).blend =
      (selectFrame uni g).frameTime - ((selectFrame uni g).currentFrame : ℚ) ∧
    0 ≤ (selectFrame uni g).blend ∧ (selectFrame uni g).blend < 1 ∧
    0 ≤ (selectFrame uni g).currentFrame ∧
    (selectFrame uni g).currentFrame < uni.FrameCount := by
  have hy : (0 : ℚ) < (uni.FrameCount : ℚ) := by exact_mod_cast hFC
  have hsel : selectFrame uni g =
      ⟨glslMod (uni.time * uni.Speed) (uni.FrameCount : ℚ),
        ⌊glslMod (uni.time * uni.Speed) (uni.FrameCount : ℚ)⌋,
        (⌊glslMod (uni.time * uni.Speed) (uni.FrameCount : ℚ)⌋ + 1) % uni.FrameCount,
        glslFract (glslMod (uni.time * uni.Speed) (uni.FrameCount : ℚ))⟩ := by
    simp [selectFrame, hA]
  rw [hsel]
  exact ⟨rfl, glslMod_nonneg _ _ hy, glslMod_lt _ _ hy, rfl, rfl, rfl,
    glslFract_nonneg _, glslFract_lt_one _,
    Int.floor_nonneg.mpr (glslMod_nonneg _ _ hy),
    Int.floor_lt.mpr (glslMod_lt _ _ hy)⟩

/-- Witness for C1, at the spec's own boundary scenario
`frameCount = 60`, `speed = 24`, `time = 2.5`. -/
theorem c1_animated_frame_selection_witness :
    ({ defaultUniforms with time := 5/2 } : PlaybackUniforms).ToggleAnimated = true ∧
    0 < ({ defaultUniforms with time := 5/2 } : PlaybackUniforms).FrameCount ∧
    ((selectFrame { defaultUniforms with time := 5/2 } 0).frameTime =
        glslMod (({ defaultUniforms with time := 5/2 } : PlaybackUniforms).time *
          ({ defaultUniforms with time := 5/2 } : PlaybackUniforms).Speed)
          (({ defaultUniforms with time := 5/2 } : PlaybackUniforms).FrameCount : ℚ) ∧
      0 ≤ (selectFrame { defaultUniforms with time := 5/2 } 0).frameTime ∧
      (selectFrame { defaultUniforms with time := 5/2 } 0).frameTime <
        (({ defaultUniforms with time := 5/2 } : PlaybackUniforms).FrameCount : ℚ) ∧
      (selectFrame { defaultUniforms with time := 5/2 } 0).currentFrame =
        ⌊(selectFrame { defaultUniforms with time := 5/2 } 0).frameTime⌋ ∧
      (selectFrame { defaultUniforms with time := 5/2 } 0).nextFrame =
        ((selectFrame { defaultUniforms with time := 5/2 } 0).currentFrame + 1) %
          ({ defaultUniforms with time := 5/2 } : PlaybackUniforms).FrameCount ∧
      (selectFrame { defaultUniforms with time := 5/2 } 0).blend =
        (selectFrame { defaultUniforms with time := 5/2 } 0).frameTime -
          ((selectFrame { defaultUniforms with time := 5/2 } 0).currentFrame : ℚ) ∧
      0 ≤ (selectFrame { defaultUniforms with time := 5/2 } 0).blend ∧
      (selectFrame { defaultUniforms with time := 5/2 } 0).blend < 1 ∧
      0 ≤ (selectFrame { defaultUniforms with time := 5/2 } 0).currentFrame ∧
      (selectFrame { defaultUniforms with time := 5/2 } 0).currentFrame <
        ({ defaultUniforms with time := 5/2 } : PlaybackUniforms).FrameCount) :=
  ⟨rfl, by decide, c1_animated_frame_selection _ 0 rfl (by decide)⟩

/-- C2 counterexample: with `frameCount = 1` and `manualFrame = 2` the
selector returns `currentFrame = 2`, not `clamp(2, 0, 0) = 0` — manual
mode does not clamp. -/
theorem c2_counterexample :
    (selectFrame { defaultUniforms with
        ToggleAnimated := false, frameSelect := 2, FrameCount := 1 } 0).currentFrame ≠
      specClamp 2 0 (1 - 1) := by decide

/-- C2 as amended: in manual mode the selector uses `manualFrame` without
clamping, `nextFrame = currentFrame`, and `blend = fract(frameTime)` where
`frameTime` is read uninitialized (an arbitrary residual value `g`), so
`blend = 0` holds only when that residual value is an integer. -/
theorem c2_manual_mode (uni : PlaybackUniforms) (g : ℚ)
    (hA : uni.ToggleAnimated = false) :
    selectFrame uni g = ⟨g, uni.frameSelect, uni.frameSelect, glslFract g⟩ := by
  simp [selectFrame, hA]

/-- Witness for C2's amended theorem at a concrete manual-mode state. -/
theorem c2_manual_mode_witness :
    ({ defaultUniforms with ToggleAnimated := false, frameSelect := 3 } :
        PlaybackUniforms).ToggleAnimated = false ∧
    selectFrame { defaultUniforms with ToggleAnimated := false, frameSelect := 3 } 0 =
      ⟨0, ({ defaultUniforms with ToggleAnimated := false, frameSelect := 3 } :
            PlaybackUniforms).frameSelect,
        ({ defaultUniforms with ToggleAnimated := false, frameSelect := 3 } :
            PlaybackUniforms).frameSelect, glslFract 0⟩ :=
  ⟨rfl, c2_manual_mode _ 0 rfl⟩

/-- C3 (code bug): the selector performs no `frameCount` validation.  At
the failing input `frameCount = 0`, animated mode, `time = 1`,
`speed = 24`, it reaches `mod(time * Speed, float(FrameCount))` with a
zero modulus — undefined in GLSL — and still produces a frame selection
(under the model's `x / 0 = 0` convention: `frameTime = 24`,
`currentFrame = 24`, `nextFrame = 25 % 0 = 25`), instead of refusing and
reporting a configuration error as the spec requires.  Note the produced
`currentFrame = 24` is not even in `[0, frameCount)`. -/
theorem c3_no_framecount_validation :
    selectFrame { defaultUniforms with FrameCount := 0, time := 1 } 0 =
      ⟨24, 24, 25, 0⟩ := by
  norm_num [selectFrame, defaultUniforms, glslMod, glslFract]

/-- C4 (confirmed): the vertex position after the VAT stage is the
original vertex position plus the remapped vector — right (x) component
`min[0] + s[0]*(max[0]-min[0])`, depth (z) component the negation of
`min[1] + s[1]*(max[1]-min[1])`, up (y) component
`min[2] + s[2]*(max[2]-min[2])` — and the midpoint sample with symmetric
bounds contributes the zero vector. -/
theorem c4_position_decode :
    (∀ transformed minV maxV s : Vec3,
      vatVertexPosition transformed minV maxV s =
        ⟨transformed.x + (minV.x + s.x * (maxV.x - minV.x)),
         transformed.y + (minV.z + s.z * (maxV.z - minV.z)),
         transformed.z + -(minV.y + s.y * (maxV.y - minV.y))⟩) ∧
    remapPosition ⟨-1, -1, -1⟩ ⟨1, 1, 1⟩ ⟨1/2, 1/2, 1/2⟩ = ⟨0, 0, 0⟩ := by
  constructor
  · intro transformed minV maxV s
    simp only [vatVertexPosition, vadd, remapPosition]
    ext <;> ring
  · simp only [remapPosition]
    ext <;> norm_num

/-- C5 (confirmed): the interpolated sample a texture contributes is the
mix, by `blend`, of exactly two fetches, at `uv + (0, currentFrame / yRes)`
and `uv + (0, nextFrame / yRes)` with row step `1 / yResolution`. -/
theorem c5_frame_sampling (tex : Tex) (uv1 : Vec2) (s : FrameSel) (yRes : ℚ) :
    sampleVAT tex uv1 s yRes =
      mixV (tex ⟨uv1.u, uv1.v + (s.currentFrame : ℚ) * (1 / yRes)⟩)
           (tex ⟨uv1.u, uv1.v + (s.nextFrame : ℚ) * (1 / yRes)⟩) s.blend := by
  simp [sampleVAT, vatUVOffset, frameStep]

/-! ## Facts about normalization -/

theorem rnormSq_pos_of_ne {v : RVec3} (h : v ≠ ((0 : ℝ), (0 : ℝ), (0 : ℝ))) :
    0 < rnormSq v := by
  rcases v with ⟨a, b, c⟩
  have h0 : (0 : ℝ) ≤ rnormSq (a, b, c) := by
    simp only [rnormSq]
    nlinarith [mul_self_nonneg a, mul_self_nonneg b, mul_self_nonneg c]
  rcases h0.lt_or_eq with hlt | heq
  · exact hlt
  · exfalso
    simp only [rnormSq] at heq
    have haa : a * a = 0 :=
      le_antisymm (by nlinarith [mul_self_nonneg b, mul_self_nonneg c]) (mul_self_nonneg a)
    have hbb : b * b = 0 :=
      le_antisymm (by nlinarith [mul_self_nonneg a, mul_self_nonneg c]) (mul_self_nonneg b)
    have hcc : c * c = 0 :=
      le_antisymm (by nlinarith [mul_self_nonneg a, mul_self_nonneg b]) (mul_self_nonneg c)
    exact h (by
      rw [mul_self_eq_zero.mp haa, mul_self_eq_zero.mp hbb, mul_self_eq_zero.mp hcc])

theorem glslNormalize_unit (v : RVec3) (h : v ≠ ((0 : ℝ), (0 : ℝ), (0 : ℝ))) :
    rnormSq (glslNormalize v) = 1 := by
  have hS : 0 < rnormSq v := rnormSq_pos_of_ne h
  have hsq : Real.sqrt (rnormSq v) * Real.sqrt (rnormSq v) = rnormSq v :=
    Real.mul_self_sqrt hS.le
  have hs : Real.sqrt (rnormSq v) ≠ 0 :=
    ne_of_gt (Real.sqrt_pos.mpr hS)
  rcases v with ⟨a, b, c⟩
  simp only [rnormSq, glslNormalize] at hsq hs ⊢
  field_simp
  linarith

theorem toR_eq_zero_iff {v : Vec3} :
    toR v = ((0 : ℝ), (0 : ℝ), (0 : ℝ)) ↔ v = ⟨0, 0, 0⟩ := by
  rcases v with ⟨a, b, c⟩
  constructor
  · intro h0
    have h1 := congrArg (fun p : RVec3 => p.1) h0
    have h2 := congrArg (fun p : RVec3 => p.2.1) h0
    have h3 := congrArg (fun p : RVec3 => p.2.2) h0
    simp only [toR] at h1 h2 h3
    have ha : a = 0 := by exact_mod_cast h1
    have hb : b = 0 := by exact_mod_cast h2
    have hc : c = 0 := by exact_mod_cast h3
    rw [ha, hb, hc]
  · intro h0
    rw [h0]
    simp [toR]

/-- C6 counterexample: both raw normal samples `(0.5, 0.5, 0.5)` (the
midpoint, a legal value in `[0,1]³`) unpack to the zero vector, whose
normalization is undefined in GLSL (the model yields the zero vector), so
the resulting shading normal does not have unit length. -/
theorem c6_counterexample :
    rnormSq (vVatNormal (fun _ => ⟨1/2, 1/2, 1/2⟩) ⟨0, 0⟩ ⟨0, 0, 1, 0⟩ 512 idMat3) ≠ 1 := by
  have hpre : vatNormalPre (fun _ => ⟨1/2, 1/2, 1/2⟩) ⟨0, 0⟩ ⟨0, 0, 1, 0⟩ 512 idMat3 =
      ⟨0, 0, 0⟩ := by
    norm_num [vatNormalPre, codeNormalPre, unpackNormal, axisCorrect, mixV, glslMix,
      vecMulMat, dot3, idMat3]
  rw [vVatNormal, hpre]
  have htr : toR ⟨0, 0, 0⟩ = ((0 : ℝ), (0 : ℝ), (0 : ℝ)) := by norm_num [toR]
  rw [htr]
  norm_num [glslNormalize, rnormSq, Real.sqrt_zero]

/-- C6 as amended (corrected): the code applies the axis correction to each
frame before interpolating rather than after, but because the axis map is
linear the computed pre-normalization vector equals the spec's
unpack → interpolate → axis-correct → matrix-transform composition; and
provided that vector is nonzero, the normalized shading normal has unit
length.  (For the zero vector — opposite normals blended to cancellation,
or the midpoint sample — GLSL `normalize` is undefined.) -/
theorem c6_normal_pipeline (a b : Vec3) (blend : ℚ) (M : Mat3)
    (h : codeNormalPre a b blend M ≠ ⟨0, 0, 0⟩) :
    codeNormalPre a b blend M = specNormalPre a b blend M ∧
    rnormSq (glslNormalize (toR (codeNormalPre a b blend M))) = 1 := by
  constructor
  · simp only [codeNormalPre, specNormalPre, mixV, axisCorrect, unpackNormal,
      vecMulMat, dot3, glslMix]
    ext <;> ring
  · apply glslNormalize_unit
    intro hc
    exact h (toR_eq_zero_iff.mp hc)

/-- Witness for C6's amended theorem at raw samples `(1, 0, 0)` (both
frames), `blend = 0`, identity normal matrix. -/
theorem c6_normal_pipeline_witness :
    codeNormalPre ⟨1, 0, 0⟩ ⟨1, 0, 0⟩ 0 idMat3 ≠ ⟨0, 0, 0⟩ ∧
    (codeNormalPre ⟨1, 0, 0⟩ ⟨1, 0, 0⟩ 0 idMat3 =
        specNormalPre ⟨1, 0, 0⟩ ⟨1, 0, 0⟩ 0 idMat3 ∧
      rnormSq (glslNormalize (toR (codeNormalPre ⟨1, 0, 0⟩ ⟨1, 0, 0⟩ 0 idMat3))) = 1) :=
  ⟨by norm_num [codeNormalPre, unpackNormal, axisCorrect, mixV, glslMix, vecMulMat,
      dot3, idMat3],
   c6_normal_pipeline ⟨1, 0, 0⟩ ⟨1, 0, 0⟩ 0 idMat3
     (by norm_num [codeNormalPre, unpackNormal, axisCorrect, mixV, glslMix, vecMulMat,
        dot3, idMat3])⟩

/-- C7 counterexample: with no normal texture bound, the sampler reads
`(0, 0, 0)`, which unpacks to `(-1, -1, -1)` — the decode path still runs,
and the fragment normal is the decoded VAT normal, not the base pipeline's
normal.  Here, with an invertible normal matrix, the result is `(1, 0, 0)`
while the base normal is `(0, 1, 0)`. -/
theorem c7_counterexample :
    materialFragmentNormal none ⟨0, 0⟩ ⟨0, 0, 1, 0⟩ 512
        ⟨⟨-1, 0, 0⟩, ⟨1, 0, 1⟩, ⟨0, 1, 1⟩⟩ ((0 : ℝ), (1 : ℝ), (0 : ℝ)) ≠
      ((0 : ℝ), (1 : ℝ), (0 : ℝ)) := by
  have hpre : vatNormalPre (bindTexture none) ⟨0, 0⟩ ⟨0, 0, 1, 0⟩ 512
      ⟨⟨-1, 0, 0⟩, ⟨1, 0, 1⟩, ⟨0, 1, 1⟩⟩ = ⟨1, 0, 0⟩ := by
    norm_num [vatNormalPre, codeNormalPre, bindTexture, unpackNormal, axisCorrect,
      mixV, glslMix, vecMulMat, dot3]
  have htr : toR ⟨1, 0, 0⟩ = ((1 : ℝ), (0 : ℝ), (0 : ℝ)) := by norm_num [toR]
  have hone : glslNormalize ((1 : ℝ), (0 : ℝ), (0 : ℝ)) = ((1 : ℝ), (0 : ℝ), (0 : ℝ)) := by
    norm_num [glslNormalize, rnormSq, Real.sqrt_one]
  simp only [materialFragmentNormal, fragmentNormal, vVatNormal, hpre, htr, hone]
  intro hcontr
  have h1 := congrArg (fun p : RVec3 => p.1) hcontr
  norm_num at h1

/-- C7 as amended (corrected): when no normal texture is supplied, normal
decoding is NOT skipped — the vertex shader still samples the (unbound)
normal sampler, and the injected fragment code unconditionally overwrites
the base pipeline's normal with the decoded VAT normal.  The fragment
normal is therefore independent of the base normal and equals the VAT
decode of the all-zero sampler; no error is raised (the pipeline is
total). -/
theorem c7_normal_path_always_active (uv1 : Vec2) (s : FrameSel) (yRes : ℚ)
    (M : Mat3) (b1 b2 : RVec3) :
    materialFragmentNormal none uv1 s yRes M b1 =
      materialFragmentNormal none uv1 s yRes M b2 ∧
    materialFragmentNormal none uv1 s yRes M b1 =
      glslNormalize (vVatNormal (fun _ => ⟨0, 0, 0⟩) uv1 s yRes M) :=
  ⟨rfl, rfl⟩

/-- C8 counterexample: compiling one VAT material against a registry whose
`beginnormal_vertex` chunk is the three.js stock text mutates that shared
chunk — the registry is not left unchanged. -/
theorem c8_counterexample :
    onBeforeCompileChunks ⟨stockBeginNormalVertex, ""⟩ ≠
      ⟨stockBeginNormalVertex, ""⟩ := by decide

/-- C8 as amended (corrected): `onBeforeCompile` rewrites the shared
global `beginnormal_vertex` chunk in place — substituting `v_vat_normal`
for `normal` in the `objectNormal` initializer, a persistent, observable
global side effect visible to every other material — while leaving
`normal_fragment_begin` untouched.  On the stock three.js chunk text the
result is the concrete mutated chunk below. -/
theorem c8_global_chunk_mutation :
    (∀ c : ShaderChunkRegistry,
      (onBeforeCompileChunks c).beginnormal_vertex =
        jsReplace c.beginnormal_vertex
          "vec3 objectNormal = vec3( normal )"
          "vec3 objectNormal = vec3( v_vat_normal )" ∧
      (onBeforeCompileChunks c).normal_fragment_begin = c.normal_fragment_begin) ∧
    ∀ nfb : String,
      onBeforeCompileChunks ⟨stockBeginNormalVertex, nfb⟩ =
        ⟨"vec3 objectNormal = vec3( v_vat_normal );", nfb⟩ := by
  refine ⟨fun c => ⟨rfl, rfl⟩, fun nfb => ?_⟩
  simp only [onBeforeCompileChunks, stockBeginNormalVertex]
  congr 1

/-- C9 counterexample: a mesh lacking both `uv` and `uv1` leaves
`ensureUVCoordinates` with a synthesized `uv1` attribute — the attribute
set does gain a lookup attribute, and no error is reported. -/
theorem c9_counterexample :
    (ensureUVCoordinates ⟨[⟨0, 0, 0⟩], none, none⟩).uv1 ≠ none := by decide

/-- C9 as amended (corrected): for every mesh lacking the `uv1` lookup
attribute, `ensureUVCoordinates` silently fabricates it — copying `uv`
when present, otherwise copying the `uv` it just generated from vertex
`(x, y)` positions — and never reports an error. -/
theorem c9_silent_fabrication (g : BufferGeometry) (h : g.uv1 = none) :
    (ensureUVCoordinates g).uv1 = some (g.uv.getD (genUVFromXY g.position)) := by
  rcases hg : g.uv with _ | u
  · simp [ensureUVCoordinates, h, hg]
  · simp [ensureUVCoordinates, h, hg]

/-- Witness for C9's amended theorem: one vertex at the origin, no `uv`,
no `uv1`. -/
theorem c9_silent_fabrication_witness :
    (⟨[⟨0, 0, 0⟩], none, none⟩ : BufferGeometry).uv1 = none ∧
    (ensureUVCoordinates ⟨[⟨0, 0, 0⟩], none, none⟩).uv1 =
      some ((⟨[⟨0, 0, 0⟩], none, none⟩ : BufferGeometry).uv.getD
        (genUVFromXY (⟨[⟨0, 0, 0⟩], none, none⟩ : BufferGeometry).position)) :=
  ⟨rfl, c9_silent_fabrication ⟨[⟨0, 0, 0⟩], none, none⟩ rfl⟩

/-- C10 counterexample: file contents `"null"` parse successfully (to JSON
`null`), yet `remapInfo['os-remap']` then throws a `TypeError`: the
promise is rejected and `setVatParams` is never invoked — so
"`setVatParams` is invoked exactly once if and only if parsing succeeds"
is false. -/
theorem c10_counterexample :
    (some Json.null).isSome = true ∧
    (loadVATRemapInfoFromFile (some Json.null) none none).setVatParamsCalls = 0 ∧
    (loadVATRemapInfoFromFile (some Json.null) none none).outcome ≠
      LoadOutcome.resolved :=
  ⟨rfl, rfl, by decide⟩

/-- C10 as amended (corrected): if the contents fail to parse, the promise
is rejected with the parse error, `vatParams` is unchanged and
`setVatParams` is not invoked; if they parse to any JSON value other than
`null`, `setVatParams` is invoked exactly once, with the defaulted
parameter record, and the promise resolves; if they parse to JSON `null`,
the `'os-remap'` property access throws, the promise is rejected even
though parsing succeeded, and `setVatParams` is not invoked. -/
theorem c10_atomicity (texH : Option ℚ) (st : Option VATParamsJ) (j : Json)
    (h : j ≠ Json.null) :
    (loadVATRemapInfoFromFile none texH st).vatParams = st ∧
    (loadVATRemapInfoFromFile none texH st).outcome = LoadOutcome.rejectedParse ∧
    (loadVATRemapInfoFromFile none texH st).setVatParamsCalls = 0 ∧
    ∃ v : JsVal, jsGet j "os-remap" = Except.ok v ∧
      (loadVATRemapInfoFromFile (some j) texH st).vatParams =
        some (mkVatParams (nullish v Json.null) texH) ∧
      (loadVATRemapInfoFromFile (some j) texH st).outcome = LoadOutcome.resolved ∧
      (loadVATRemapInfoFromFile (some j) texH st).setVatParamsCalls = 1 := by
  refine ⟨rfl, rfl, rfl, ?_⟩
  cases j with
  | null => exact absurd rfl h
  | bool b => exact ⟨none, rfl, rfl, rfl, rfl⟩
  | num q => exact ⟨none, rfl, rfl, rfl, rfl⟩
  | str s => exact ⟨none, rfl, rfl, rfl, rfl⟩
  | arr xs => exact ⟨none, rfl, rfl, rfl, rfl⟩
  | obj fields => exact ⟨_, rfl, rfl, rfl, rfl⟩

/-- Witness for C10's amended theorem at the empty JSON object. -/
theorem c10_atomicity_witness :
    Json.obj [] ≠ Json.null ∧
    ((loadVATRemapInfoFromFile none none none).vatParams = none ∧
      (loadVATRemapInfoFromFile none none none).outcome = LoadOutcome.rejectedParse ∧
      (loadVATRemapInfoFromFile none none none).setVatParamsCalls = 0 ∧
      ∃ v : JsVal, jsGet (Json.obj []) "os-remap" = Except.ok v ∧
        (loadVATRemapInfoFromFile (some (Json.obj [])) none none).vatParams =
          some (mkVatParams (nullish v Json.null) none) ∧
        (loadVATRemapInfoFromFile (some (Json.obj [])) none none).outcome =
          LoadOutcome.resolved ∧
        (loadVATRemapInfoFromFile (some (Json.obj [])) none none).setVatParamsCalls = 1) :=
  ⟨fun hx => Json.noConfusion hx,
   c10_atomicity none none (Json.obj []) (fun hx => Json.noConfusion hx)⟩

end OpenVAT
